import Mathlib

/-!
Verification development for the Automated Happiness Weather Warehouse ETL
scripts (`etl_weather.py`, `etl_happiness.py`, `generate_happiness_report.py`).
The Python code is shallowly embedded: pure computations become Lean
functions, the per-city loop of `fetch_and_load_weather` becomes explicit
state passing over an embedded database-connection state, and external HTTP
and database outcomes become per-city input oracles.
-/

namespace Warehouse

/-! ## Weather-code description and category (etl_weather.py lines 74-82) -/

/-- Embeds the `descriptions` dict literal of `fetch_and_load_weather`:
`descriptions.get(code, ...)` is a key lookup, modelled as an if-chain over
the eleven keys. -/
def descriptionsGet (code : Int) : Option String :=
  if code = 0 then some "Clear sky"
  else if code = 1 then some "Mainly clear"
  else if code = 2 then some "Partly cloudy"
  else if code = 3 then some "Overcast"
  else if code = 45 then some "Fog"
  else if code = 48 then some "Depositing rime fog"
  else if code = 51 then some "Light drizzle"
  else if code = 61 then some "Rain"
  else if code = 71 then some "Snow"
  else if code = 80 then some "Rain showers"
  else if code = 95 then some "Thunderstorm"
  else none

/-- Embeds `weather_desc = descriptions.get(code, f"Weather code {code}")`. -/
def weather_desc (code : Int) : String :=
  (descriptionsGet code).getD ("Weather code " ++ toString code)

/-- Takes the longest prefix of non-whitespace characters. -/
def takeWord : List Char → List Char
  | [] => []
  | c :: cs => if c.isWhitespace then [] else c :: takeWord cs

/-- Embeds Python `s.split()[0]`: drop leading whitespace, then take the first
maximal run of non-whitespace characters.  (Python raises IndexError on an
all-whitespace string; that case is unreachable for the strings
`weather_desc` produces, and is modelled as the empty string.) -/
def firstWord (s : String) : String :=
  ⟨takeWord (s.data.dropWhile Char.isWhitespace)⟩

/-- Embeds `weather_main = "Clouds" if 1 <= code <= 3 else weather_desc.split()[0]`. -/
def weather_main (code : Int) : String :=
  if 1 ≤ code ∧ code ≤ 3 then "Clouds" else firstWord (weather_desc code)

/-! ## Country alias table (etl_weather.py lines 8-17) -/

/-- Embeds the `COUNTRY_MAPPING` dict of etl_weather.py. -/
def COUNTRY_MAPPING : List (String × String) :=
  [("UK", "United Kingdom"),
   ("US", "United States"),
   ("UAE", "United Arab Emirates"),
   ("Turkey", "Turkiye"),
   ("South Korea", "South Korea"),
   ("Russia", "Russia"),
   ("China", "China"),
   ("Brazil", "Brazil")]

/-- Embeds Python `city.split(",")[-1]`: the suffix after the last comma,
or the whole string when no comma occurs.  (Matches `str.split` on a
trailing comma too: the last field is then empty.) -/
def lastField (l : List Char) : List Char :=
  l.foldl (fun acc c => if c = ',' then [] else acc ++ [c]) []

/-- Embeds Python `.strip()`: remove leading and trailing whitespace. -/
def pyStrip (l : List Char) : List Char :=
  ((l.dropWhile Char.isWhitespace).reverse.dropWhile Char.isWhitespace).reverse

/-- Embeds `raw_country = city.split(",")[-1].strip()` followed by
`country = COUNTRY_MAPPING.get(raw_country, raw_country)`. -/
def countryFor (city : String) : String :=
  let raw_country : String := ⟨pyStrip (lastField city.data)⟩
  (COUNTRY_MAPPING.lookup raw_country).getD raw_country

/-! ## Database state (dim_city, fact_weather_snapshot)

The two tables touched by the weather loader.  `city_id` is the serial key
returned by `RETURNING city_id`; it is modelled by a fresh-id counter
`nextId`.  The snapshot insert is `ON CONFLICT DO NOTHING`; the DDL is not
part of the repository, so the conflict key is modelled from the spec:
"duplicate inserts for the same city/time are silently ignored", i.e. the
unique key is (city_id, fetch_time). -/

structure CityRow where
  city_id : Nat
  city_name : String
  country_name : String
deriving DecidableEq, Repr

structure SnapRow where
  city_id : Nat
  /-- Modelled from the spec: the implicit fetch timestamp column of
  `fact_weather_snapshot`; part of the conflict key, whose DDL is missing
  from the repository sources. -/
  fetch_time : Nat
  temperature_celsius : ℚ
  feels_like_celsius : ℚ
  humidity_percent : ℚ
  weather_main : String
  weather_description : String
  wind_speed_mps : ℚ
deriving DecidableEq, Repr

structure DB where
  cities : List CityRow
  snapshots : List SnapRow
  nextId : Nat
deriving DecidableEq, Repr

def DB.empty : DB := ⟨[], [], 0⟩

/-- The `DO UPDATE SET country_name = EXCLUDED.country_name` action of the
`dim_city` upsert, applied to one stored row. -/
def updCountry (name country : String) (q : CityRow) : CityRow :=
  if q.city_name == name then { q with country_name := country } else q

/-- Embeds the `dim_city` upsert
`INSERT ... ON CONFLICT (city_name) DO UPDATE SET country_name = EXCLUDED.country_name RETURNING city_id`:
if a row with this `city_name` exists, its `country_name` is overwritten and
its `city_id` returned; otherwise a fresh row is appended with a fresh id. -/
def DB.upsertCity (db : DB) (name country : String) : Nat × DB :=
  match db.cities.find? (fun r => r.city_name == name) with
  | some r =>
      (r.city_id, { db with cities := db.cities.map (updCountry name country) })
  | none =>
      (db.nextId,
       { db with cities := db.cities ++ [⟨db.nextId, name, country⟩],
                 nextId := db.nextId + 1 })

/-- Embeds the `fact_weather_snapshot` insert with `ON CONFLICT DO NOTHING`:
a row whose conflict key (city_id, fetch_time) is already present is
silently dropped. -/
def DB.insertSnapshot (db : DB) (row : SnapRow) : DB :=
  if db.snapshots.any (fun s => s.city_id == row.city_id && s.fetch_time == row.fetch_time)
  then db
  else { db with snapshots := db.snapshots ++ [row] }

/-- Connection state: `durable` is what has been committed, `current` the
pending view inside the open transaction (psycopg2 autocommit off). -/
structure DBConn where
  durable : DB
  current : DB
deriving DecidableEq, Repr

def DBConn.commit (c : DBConn) : DBConn := ⟨c.current, c.current⟩

def DBConn.rollback (c : DBConn) : DBConn := ⟨c.durable, c.durable⟩

def emptyConn : DBConn := ⟨DB.empty, DB.empty⟩

/-! ## External-call oracles

Each configured city's two HTTP calls and possible database failures are
inputs to the loop, supplied per city. -/

/-- Outcome of the Nominatim geocoding request inside `fetch_coordinates`. -/
inductive GeoOutcome where
  /-- `requests.get` (or response parsing) raised an exception. -/
  | error : GeoOutcome
  /-- the response had a non-200 status code. -/
  | non200 : GeoOutcome
  /-- status 200 but `response.json()` is an empty (falsy) array. -/
  | emptyResults : GeoOutcome
  /-- status 200 with a first result carrying these coordinates. -/
  | ok (lat lon : ℚ) : GeoOutcome
deriving DecidableEq, Repr

/-- Fields of the Open-Meteo `current` object consumed by the loader. -/
structure WeatherData where
  temperature_2m : ℚ
  apparent_temperature : ℚ
  relative_humidity_2m : ℚ
  weather_code : Int
  wind_speed_10m : ℚ
deriving DecidableEq, Repr

/-- Outcome of the Open-Meteo weather request in the loop body. -/
inductive WeatherOutcome where
  /-- the response had a non-200 status code. -/
  | non200 : WeatherOutcome
  /-- status 200 but the body is missing an expected field, so a subscript
  such as `response.json()["current"]` raises KeyError. -/
  | missingFields : WeatherOutcome
  /-- status 200 with all expected fields present. -/
  | ok (d : WeatherData) : WeatherOutcome
deriving DecidableEq, Repr

/-- Whether a `cur.execute` raises `psycopg2.Error` during this city. -/
inductive DbErr where
  | none : DbErr
  /-- the `dim_city` upsert raises. -/
  | onUpsert : DbErr
  /-- the `fact_weather_snapshot` insert raises. -/
  | onSnapshotInsert : DbErr
deriving DecidableEq, Repr

/-- One configured city together with the oracle outcomes of its external
calls; `fetch_time` is the implicit snapshot timestamp of this run. -/
structure CityInput where
  city : String
  geo : GeoOutcome
  weather : WeatherOutcome
  dbErr : DbErr
  fetch_time : Nat
deriving DecidableEq, Repr

/-- Embeds `fetch_coordinates` (etl_weather.py lines 19-30): on HTTP success
with a non-empty result array it returns the first result's coordinates; on
any exception, non-200 status, or empty array it returns the sentinel
`(None, None)` after logging a warning. -/
def fetch_coordinates : GeoOutcome → Option ℚ × Option ℚ
  | .ok lat lon => (some lat, some lon)
  | _ => (none, none)

/-- Python truthiness test `not lat or not lon` on the pair returned by
`fetch_coordinates`: a coordinate is falsy when it is `None` or `0.0`. -/
def coordsFalsy : Option ℚ × Option ℚ → Bool
  | (lat, lon) => decide (lat.getD 0 = 0) || decide (lon.getD 0 = 0)

/-- Embeds one iteration of the per-city loop of `fetch_and_load_weather`
(etl_weather.py lines 51-99).  `Except.error` means an exception escaped the
loop (only `psycopg2.Error` is caught, so a KeyError from a 200 weather
response with missing fields propagates and aborts the batch); `Except.ok`
means control reached the next iteration. -/
def processCity (conn : DBConn) (inp : CityInput) : Except DBConn DBConn :=
  if coordsFalsy (fetch_coordinates inp.geo) then .ok conn
  else
    let country := countryFor inp.city
    match inp.dbErr with
    | .onUpsert => .ok conn.rollback
    | dbe =>
      let (city_id, db1) := conn.current.upsertCity inp.city country
      let conn1 : DBConn := ⟨conn.durable, db1⟩
      match inp.weather with
      | .non200 => .ok conn1
      | .missingFields => .error conn1
      | .ok d =>
        match dbe with
        | .onSnapshotInsert => .ok conn1.rollback
        | _ =>
          let db2 := db1.insertSnapshot
            ⟨city_id, inp.fetch_time, d.temperature_2m, d.apparent_temperature,
             d.relative_humidity_2m, weather_main d.weather_code,
             weather_desc d.weather_code, d.wind_speed_10m⟩
          .ok (DBConn.commit ⟨conn.durable, db2⟩)

/-- Embeds the whole `for city in CITIES` loop: sequential, stopping only
when an uncaught exception escapes an iteration. -/
def runCities (conn : DBConn) : List CityInput → Except DBConn DBConn
  | [] => .ok conn
  | inp :: rest =>
    match processCity conn inp with
    | .ok c => runCities c rest
    | .error c => .error c

/-- Embeds `fetch_and_load_weather` end to end: run the loop from a given
database state (both views in sync at connect time); closing the connection
without a final commit discards whatever is still pending, so the resulting
durable state is the `durable` component.  `Except.error` reports the batch
aborting with an uncaught exception. -/
def fetch_and_load_weather (init : DB) (inputs : List CityInput) : Except DB DB :=
  match runCities ⟨init, init⟩ inputs with
  | .ok c => .ok c.durable
  | .error c => .error c.durable

/-! ## Happiness CSV loader (etl_happiness.py) -/

/-- One data row of the CSV after the column rename of
`load_happiness_data`; `region` is set to `None` for every row (line 24). -/
structure HappinessRow where
  country_name : String
  ladder_score : ℚ
  gdp_per_capita : ℚ
  social_support : ℚ
  healthy_life_expectancy : ℚ
  freedom_to_make_choices : ℚ
  generosity : ℚ
  perceptions_of_corruption : ℚ
deriving DecidableEq, Repr

/-- A `dim_country` row; `region` is an `Option` because the loader always
writes NULL there. -/
structure CountryRow where
  country_name : String
  region : Option String
  ladder_score : ℚ
  gdp_per_capita : ℚ
  social_support : ℚ
  healthy_life_expectancy : ℚ
  freedom_to_make_choices : ℚ
  generosity : ℚ
  perceptions_of_corruption : ℚ
deriving DecidableEq, Repr

def HappinessRow.toCountryRow (r : HappinessRow) : CountryRow :=
  ⟨r.country_name, none, r.ladder_score, r.gdp_per_capita, r.social_support,
   r.healthy_life_expectancy, r.freedom_to_make_choices, r.generosity,
   r.perceptions_of_corruption⟩

/-- Embeds the `dim_country` upsert
`INSERT ... ON CONFLICT (country_name) DO UPDATE SET <every non-key column>`:
an existing row with this `country_name` is overwritten wholesale, otherwise
the row is appended. -/
def upsertCountry (table : List CountryRow) (r : HappinessRow) : List CountryRow :=
  if table.any (fun q => q.country_name == r.country_name) then
    table.map (fun q =>
      if q.country_name == r.country_name then r.toCountryRow else q)
  else
    table ++ [r.toCountryRow]

/-- A database call issued by `load_happiness_data`, in order. -/
inductive HapEvent where
  | upsert (r : HappinessRow) : HapEvent
  | commit : HapEvent
deriving DecidableEq, Repr

/-- Embeds the statement sequence of `load_happiness_data` lines 51-54: one
`cur.execute(insert_query, ...)` per DataFrame row, then a single
`conn.commit()`. -/
def happinessTrace (df : List HappinessRow) : List HapEvent :=
  df.map HapEvent.upsert ++ [HapEvent.commit]

def HapEvent.isUpsert : HapEvent → Bool
  | .upsert _ => true
  | .commit => false

def HapEvent.isCommit : HapEvent → Bool
  | .upsert _ => false
  | .commit => true

/-- State of `dim_country` after `load_happiness_data` runs on `df` against
a table `init`. -/
def load_happiness_data (init : List CountryRow) (df : List HappinessRow) :
    List CountryRow :=
  df.foldl upsertCountry init

/-- Embeds the final `print(df.head()[['country_name', 'ladder_score']])`
(line 59): pandas `head()` is the FIRST five rows in file order. -/
def printedTop5 (df : List HappinessRow) : List (String × ℚ) :=
  (df.take 5).map (fun r => (r.country_name, r.ladder_score))

/-- The five highest ladder scores of the loaded data (what the spec says
the printed "Top 5" shows): sort all scores descending, take five. -/
def top5Scores (df : List HappinessRow) : List ℚ :=
  (List.insertionSort (fun a b => b ≤ a) (df.map (·.ladder_score))).take 5

/-! ## Report generator (generate_happiness_report.py) -/

/-- One row of the warehouse join read by `fetch_data`. -/
structure ReportRow where
  happiness_score : ℚ
  temperature_celsius : ℚ
  country_name : String
  city_name : String
deriving DecidableEq, Repr

/-- An output file written by `generate_report`. -/
inductive ReportFile where
  | mainChart : ReportFile
  | distributionChart : ReportFile
  | insightsFile : ReportFile
deriving DecidableEq, Repr

/-- Embeds `HappinessReportGenerator.fetch_data` lines 42-50: an empty query
result raises `ValueError` before anything else happens. -/
def fetch_data (rows : List ReportRow) : Except String (List ReportRow) :=
  if rows.isEmpty then
    .error "No data retrieved. Ensure ETL has run and weather data exists for today."
  else .ok rows

/-- Embeds `generate_report` lines 298-351: the files written in order, and
whether the run re-raised.  `fetch_data` runs first; when it raises, the
`except` block prints a traceback and re-raises, so no chart image or
insights file is created. -/
def generate_report (rows : List ReportRow) : List ReportFile × Bool :=
  match fetch_data rows with
  | .error _ => ([], true)
  | .ok _ =>
    ([ReportFile.mainChart, ReportFile.distributionChart, ReportFile.insightsFile],
     false)

/-! ## Derived observations on the weather loader -/

/-- The durable database state visible after the script ends, whether the
batch completed or died on an uncaught exception. -/
def finalDB : Except DB DB → DB
  | .ok d => d
  | .error d => d

/-- Whether a run of the weather loader raised an uncaught exception. -/
def runAborts (init : DB) (inputs : List CityInput) : Bool :=
  match fetch_and_load_weather init inputs with
  | .ok _ => false
  | .error _ => true

/-- A predicate holds of the connection state, whether the iteration
returned normally or let an exception escape. -/
def ExceptBoth (P : DBConn → Prop) : Except DBConn DBConn → Prop
  | .ok c => P c
  | .error c => P c

/-- Well-formedness of a database state: city rows have pairwise distinct
names and ids, every city id is below the serial counter, and every
snapshot references an existing city row. -/
def DB.wf (db : DB) : Prop :=
  db.cities.Pairwise (fun a b => a.city_name ≠ b.city_name ∧ a.city_id ≠ b.city_id)
  ∧ (∀ r ∈ db.cities, r.city_id < db.nextId)
  ∧ (∀ s ∈ db.snapshots, ∃ r ∈ db.cities, r.city_id = s.city_id)

def DBConn.wf (c : DBConn) : Prop := c.durable.wf ∧ c.current.wf

/-- City names present in either view of the connection state. -/
def connNames (conn : DBConn) : List String :=
  conn.durable.cities.map CityRow.city_name ++ conn.current.cities.map CityRow.city_name

/-- The number of `dim_city` rows carrying a given name. -/
def DB.cityCount (db : DB) (n : String) : Nat :=
  (db.cities.filter (fun r => r.city_name == n)).length

/-- Exactly one city row named `n`, its id is `k`, exactly one snapshot
references `k`, and `k` is below the serial counter. -/
def DB.onceCity (db : DB) (n : String) (k : Nat) : Prop :=
  (db.cities.filter (fun r => r.city_name == n)).map CityRow.city_id = [k]
  ∧ (db.snapshots.filter (fun s => s.city_id == k)).length = 1
  ∧ k < db.nextId

/-! ## Basic lemmas about the embedded SQL operations -/

@[simp] theorem updCountry_city_id (name country : String) (q : CityRow) :
    (updCountry name country q).city_id = q.city_id := by
  unfold updCountry; split <;> rfl

@[simp] theorem updCountry_city_name (name country : String) (q : CityRow) :
    (updCountry name country q).city_name = q.city_name := by
  unfold updCountry; split <;> rfl

theorem filter_map_updCountry (l : List CityRow) (name country n : String) :
    ((l.map (updCountry name country)).filter (fun r => r.city_name == n)).map
        CityRow.city_id
      = (l.filter (fun r => r.city_name == n)).map CityRow.city_id := by
  induction l with
  | nil => rfl
  | cons q l ih =>
    by_cases h : q.city_name == n <;>
      simp [List.filter_cons, h, ih]

theorem filterLen_map_updCountry (l : List CityRow) (name country n : String) :
    ((l.map (updCountry name country)).filter (fun r => r.city_name == n)).length
      = (l.filter (fun r => r.city_name == n)).length := by
  have h := congrArg List.length (filter_map_updCountry l name country n)
  simpa using h

theorem upsertCity_snapshots (db : DB) (name country : String) :
    ((db.upsertCity name country).2).snapshots = db.snapshots := by
  unfold DB.upsertCity; split <;> rfl

theorem insertSnapshot_cities (db : DB) (row : SnapRow) :
    (db.insertSnapshot row).cities = db.cities := by
  unfold DB.insertSnapshot; split <;> rfl

theorem insertSnapshot_nextId (db : DB) (row : SnapRow) :
    (db.insertSnapshot row).nextId = db.nextId := by
  unfold DB.insertSnapshot; split <;> rfl

theorem upsertCity_wf (db : DB) (name country : String) (hw : db.wf) :
    ((db.upsertCity name country).2).wf := by
  obtain ⟨hp, hb, hs⟩ := hw
  unfold DB.upsertCity
  split
  case h_1 r hr =>
    refine ⟨?_, ?_, ?_⟩
    · exact hp.map _ (fun a b hab => by simpa using hab)
    · intro q hq
      obtain ⟨q0, hq0, rfl⟩ := List.mem_map.1 hq
      simpa using hb q0 hq0
    · intro s hsm
      obtain ⟨r0, hr0, hid⟩ := hs s hsm
      exact ⟨updCountry name country r0, List.mem_map_of_mem _ hr0, by simpa using hid⟩
  case h_2 hr =>
    have hnone := List.find?_eq_none.1 hr
    refine ⟨?_, ?_, ?_⟩
    · rw [List.pairwise_append]
      refine ⟨hp, List.pairwise_singleton _ _, ?_⟩
      intro a ha b hb'
      simp only [List.mem_singleton] at hb'
      subst hb'
      constructor
      · intro hcontra
        exact hnone a ha (by simp [hcontra])
      · exact Nat.ne_of_lt (hb a ha)
    · intro q hq
      rcases List.mem_append.1 hq with h | h
      · exact Nat.lt_succ_of_lt (hb q h)
      · simp only [List.mem_singleton] at h
        subst h
        exact Nat.lt_succ_self _
    · intro s hsm
      obtain ⟨r0, hr0, hid⟩ := hs s hsm
      exact ⟨r0, List.mem_append_left _ hr0, hid⟩

theorem upsertCity_id_mem (db : DB) (name country : String) :
    ∃ r ∈ ((db.upsertCity name country).2).cities,
      r.city_id = (db.upsertCity name country).1 ∧ r.city_name = name := by
  unfold DB.upsertCity
  split
  case h_1 r hr =>
    have hpred := List.find?_some hr
    have hmem : r ∈ db.cities := List.mem_of_find?_eq_some hr
    refine ⟨updCountry name country r, List.mem_map_of_mem _ hmem, by simp, ?_⟩
    simpa using (by simpa using hpred : r.city_name = name)
  case h_2 hr =>
    exact ⟨⟨db.nextId, name, country⟩, List.mem_append_right _ (by simp), rfl, rfl⟩

theorem insertSnapshot_wf (db : DB) (row : SnapRow) (hw : db.wf)
    (hmem : ∃ r ∈ db.cities, r.city_id = row.city_id) :
    (db.insertSnapshot row).wf := by
  obtain ⟨hp, hb, hs⟩ := hw
  unfold DB.insertSnapshot
  split
  · exact ⟨hp, hb, hs⟩
  · refine ⟨hp, hb, ?_⟩
    intro s hsm
    rcases List.mem_append.1 hsm with h | h
    · exact hs s h
    · simp only [List.mem_singleton] at h
      subst h
      exact hmem

/-! ## Branch equations for one loop iteration -/

theorem processCity_geoFail (conn : DBConn) (inp : CityInput)
    (h : inp.geo = .error ∨ inp.geo = .non200 ∨ inp.geo = .emptyResults) :
    processCity conn inp = .ok conn := by
  rcases h with h | h | h <;>
    simp [processCity, coordsFalsy, fetch_coordinates, h]

theorem processCity_zeroCoord (conn : DBConn) (inp : CityInput) (lat lon : ℚ)
    (hg : inp.geo = .ok lat lon) (h : lat = 0 ∨ lon = 0) :
    processCity conn inp = .ok conn := by
  rcases h with h | h <;>
    simp [processCity, coordsFalsy, fetch_coordinates, hg, h]

theorem processCity_upsertErr (conn : DBConn) (inp : CityInput) (lat lon : ℚ)
    (hg : inp.geo = .ok lat lon) (hlat : lat ≠ 0) (hlon : lon ≠ 0)
    (hdb : inp.dbErr = .onUpsert) :
    processCity conn inp = .ok conn.rollback := by
  simp [processCity, coordsFalsy, fetch_coordinates, hg, hlat, hlon, hdb]

theorem processCity_weatherNon200 (conn : DBConn) (inp : CityInput) (lat lon : ℚ)
    (hg : inp.geo = .ok lat lon) (hlat : lat ≠ 0) (hlon : lon ≠ 0)
    (hdb : inp.dbErr ≠ .onUpsert) (hwx : inp.weather = .non200) :
    processCity conn inp =
      .ok ⟨conn.durable, (conn.current.upsertCity inp.city (countryFor inp.city)).2⟩ := by
  rcases hd : inp.dbErr with _ | _ | _
  · simp [processCity, coordsFalsy, fetch_coordinates, hg, hlat, hlon, hd, hwx]
  · exact absurd hd hdb
  · simp [processCity, coordsFalsy, fetch_coordinates, hg, hlat, hlon, hd, hwx]

theorem processCity_missingFields (conn : DBConn) (inp : CityInput) (lat lon : ℚ)
    (hg : inp.geo = .ok lat lon) (hlat : lat ≠ 0) (hlon : lon ≠ 0)
    (hdb : inp.dbErr ≠ .onUpsert) (hwx : inp.weather = .missingFields) :
    processCity conn inp =
      .error ⟨conn.durable, (conn.current.upsertCity inp.city (countryFor inp.city)).2⟩ := by
  rcases hd : inp.dbErr with _ | _ | _
  · simp [processCity, coordsFalsy, fetch_coordinates, hg, hlat, hlon, hd, hwx]
  · exact absurd hd hdb
  · simp [processCity, coordsFalsy, fetch_coordinates, hg, hlat, hlon, hd, hwx]

theorem processCity_snapErr (conn : DBConn) (inp : CityInput) (lat lon : ℚ)
    (d : WeatherData)
    (hg : inp.geo = .ok lat lon) (hlat : lat ≠ 0) (hlon : lon ≠ 0)
    (hdb : inp.dbErr = .onSnapshotInsert) (hwx : inp.weather = .ok d) :
    processCity conn inp = .ok conn.rollback := by
  simp [processCity, coordsFalsy, fetch_coordinates, hg, hlat, hlon, hdb, hwx,
    DBConn.rollback]

/-- The committed success path: the snapshot row is built from the id that
the `dim_city` upsert of the same iteration just returned. -/
theorem processCity_success (conn : DBConn) (inp : CityInput) (lat lon : ℚ)
    (d : WeatherData)
    (hg : inp.geo = .ok lat lon) (hlat : lat ≠ 0) (hlon : lon ≠ 0)
    (hdb : inp.dbErr = .none) (hwx : inp.weather = .ok d) :
    processCity conn inp =
      .ok (DBConn.commit ⟨conn.durable,
        ((conn.current.upsertCity inp.city (countryFor inp.city)).2).insertSnapshot
          ⟨(conn.current.upsertCity inp.city (countryFor inp.city)).1,
           inp.fetch_time, d.temperature_2m, d.apparent_temperature,
           d.relative_humidity_2m, weather_main d.weather_code,
           weather_desc d.weather_code, d.wind_speed_10m⟩⟩) := by
  simp [processCity, coordsFalsy, fetch_coordinates, hg, hlat, hlon, hdb, hwx]

theorem runCities_cons_ok {conn c : DBConn} {inp : CityInput} {rest : List CityInput}
    (h : processCity conn inp = .ok c) :
    runCities conn (inp :: rest) = runCities c rest := by
  simp [runCities, h]

theorem runCities_cons_error {conn c : DBConn} {inp : CityInput}
    {rest : List CityInput} (h : processCity conn inp = .error c) :
    runCities conn (inp :: rest) = .error c := by
  simp [runCities, h]

/-- Every iteration outcome has one of five shapes: skip, rollback, pending
upsert (returned or thrown), or committed upsert-plus-snapshot where the
snapshot row carries the id the upsert just returned. -/
theorem processCity_shapes (conn : DBConn) (inp : CityInput) :
    processCity conn inp = .ok conn
  ∨ processCity conn inp = .ok conn.rollback
  ∨ processCity conn inp =
      .ok ⟨conn.durable, (conn.current.upsertCity inp.city (countryFor inp.city)).2⟩
  ∨ processCity conn inp =
      .error ⟨conn.durable, (conn.current.upsertCity inp.city (countryFor inp.city)).2⟩
  ∨ ∃ row : SnapRow,
      row.city_id = (conn.current.upsertCity inp.city (countryFor inp.city)).1
      ∧ processCity conn inp = .ok
          ⟨((conn.current.upsertCity inp.city (countryFor inp.city)).2).insertSnapshot row,
           ((conn.current.upsertCity inp.city (countryFor inp.city)).2).insertSnapshot row⟩ := by
  rcases hg : inp.geo with _ | _ | _ | ⟨lat, lon⟩
  · exact Or.inl (processCity_geoFail conn inp (Or.inl hg))
  · exact Or.inl (processCity_geoFail conn inp (Or.inr (Or.inl hg)))
  · exact Or.inl (processCity_geoFail conn inp (Or.inr (Or.inr hg)))
  by_cases hlat : lat = 0
  · exact Or.inl (processCity_zeroCoord conn inp lat lon hg (Or.inl hlat))
  by_cases hlon : lon = 0
  · exact Or.inl (processCity_zeroCoord conn inp lat lon hg (Or.inr hlon))
  rcases hd : inp.dbErr with _ | _ | _
  · rcases hwx : inp.weather with _ | _ | d
    · exact Or.inr (Or.inr (Or.inl
        (processCity_weatherNon200 conn inp lat lon hg hlat hlon (by simp [hd]) hwx)))
    · exact Or.inr (Or.inr (Or.inr (Or.inl
        (processCity_missingFields conn inp lat lon hg hlat hlon (by simp [hd]) hwx))))
    · refine Or.inr (Or.inr (Or.inr (Or.inr
        ⟨⟨(conn.current.upsertCity inp.city (countryFor inp.city)).1,
          inp.fetch_time, d.temperature_2m, d.apparent_temperature,
          d.relative_humidity_2m, weather_main d.weather_code,
          weather_desc d.weather_code, d.wind_speed_10m⟩, rfl, ?_⟩)))
      have h := processCity_success conn inp lat lon d hg hlat hlon hd hwx
      simpa [DBConn.commit] using h
  · exact Or.inr (Or.inl (processCity_upsertErr conn inp lat lon hg hlat hlon hd))
  · rcases hwx : inp.weather with _ | _ | d
    · exact Or.inr (Or.inr (Or.inl
        (processCity_weatherNon200 conn inp lat lon hg hlat hlon (by simp [hd]) hwx)))
    · exact Or.inr (Or.inr (Or.inr (Or.inl
        (processCity_missingFields conn inp lat lon hg hlat hlon (by simp [hd]) hwx))))
    · exact Or.inr (Or.inl (processCity_snapErr conn inp lat lon d hg hlat hlon hd hwx))

theorem runCities_append (conn : DBConn) (xs ys : List CityInput) :
    runCities conn (xs ++ ys) =
      match runCities conn xs with
      | .ok c => runCities c ys
      | .error c => .error c := by
  induction xs generalizing conn with
  | nil => simp [runCities]
  | cons x xs ih =>
    rcases h : processCity conn x with c | c
    · simp [runCities, h]
    · simp [List.cons_append, runCities_cons_ok h, runCities_cons_ok h, ih]

/-! ## Invariant preservation through the loop -/

theorem processCity_wf (conn : DBConn) (inp : CityInput) (hw : conn.wf) :
    ExceptBoth DBConn.wf (processCity conn inp) := by
  rcases processCity_shapes conn inp with h | h | h | h | ⟨row, hid, h⟩ <;> rw [h]
  · exact hw
  · exact ⟨hw.1, hw.1⟩
  · exact ⟨hw.1, upsertCity_wf _ _ _ hw.2⟩
  · exact ⟨hw.1, upsertCity_wf _ _ _ hw.2⟩
  · have hmem := upsertCity_id_mem conn.current inp.city (countryFor inp.city)
    have hwf2 : (((conn.current.upsertCity inp.city (countryFor inp.city)).2).insertSnapshot
        row).wf := by
      refine insertSnapshot_wf _ _ (upsertCity_wf _ _ _ hw.2) ?_
      obtain ⟨r, hr, hrid, _⟩ := hmem
      exact ⟨r, hr, by rw [hrid, hid]⟩
    exact ⟨hwf2, hwf2⟩

theorem runCities_wf (inputs : List CityInput) (conn : DBConn) (hw : conn.wf) :
    ExceptBoth DBConn.wf (runCities conn inputs) := by
  induction inputs generalizing conn with
  | nil => exact hw
  | cons inp rest ih =>
    have hstep := processCity_wf conn inp hw
    rcases h : processCity conn inp with c | c
    · rw [runCities_cons_error h]
      rw [h] at hstep
      exact hstep
    · rw [runCities_cons_ok h]
      rw [h] at hstep
      exact ih c hstep

theorem upsertCity_names (db : DB) (name country : String) :
    ∀ r ∈ ((db.upsertCity name country).2).cities,
      r.city_name ∈ db.cities.map CityRow.city_name ∨ r.city_name = name := by
  unfold DB.upsertCity
  split
  case h_1 r0 hr0 =>
    intro r hr
    obtain ⟨q, hq, rfl⟩ := List.mem_map.1 hr
    exact Or.inl (by simpa using List.mem_map_of_mem CityRow.city_name hq)
  case h_2 hr0 =>
    intro r hr
    rcases List.mem_append.1 hr with h | h
    · exact Or.inl (List.mem_map_of_mem CityRow.city_name h)
    · simp only [List.mem_singleton] at h
      subst h
      exact Or.inr rfl

theorem processCity_names (conn : DBConn) (inp : CityInput) :
    ExceptBoth (fun c => ∀ m ∈ connNames c, m ∈ connNames conn ∨ m = inp.city)
      (processCity conn inp) := by
  have hdur : ∀ m ∈ conn.durable.cities.map CityRow.city_name, m ∈ connNames conn :=
    fun m hm => List.mem_append_left _ hm
  have hcur : ∀ m ∈ conn.current.cities.map CityRow.city_name, m ∈ connNames conn :=
    fun m hm => List.mem_append_right _ hm
  have hup : ∀ m ∈ ((conn.current.upsertCity inp.city (countryFor inp.city)).2).cities.map
      CityRow.city_name, m ∈ connNames conn ∨ m = inp.city := by
    intro m hm
    obtain ⟨r, hr, rfl⟩ := List.mem_map.1 hm
    rcases upsertCity_names conn.current inp.city (countryFor inp.city) r hr with h | h
    · exact Or.inl (hcur _ h)
    · exact Or.inr h
  rcases processCity_shapes conn inp with h | h | h | h | ⟨row, _, h⟩ <;> rw [h]
  · exact fun m hm => Or.inl hm
  · intro m hm
    rcases List.mem_append.1 hm with hm | hm
    · exact Or.inl (hdur _ hm)
    · exact Or.inl (hdur _ hm)
  · intro m hm
    rcases List.mem_append.1 hm with hm | hm
    · exact Or.inl (hdur _ hm)
    · exact hup _ hm
  · intro m hm
    rcases List.mem_append.1 hm with hm | hm
    · exact Or.inl (hdur _ hm)
    · exact hup _ hm
  · intro m hm
    rcases List.mem_append.1 hm with hm | hm <;>
      · rw [show ∀ db : DB, ∀ rw : SnapRow, (db.insertSnapshot rw).cities = db.cities
            from fun db rw => insertSnapshot_cities db rw] at hm
        exact hup _ hm

theorem runCities_names (inputs : List CityInput) (conn conn' : DBConn)
    (hr : runCities conn inputs = .ok conn') :
    ∀ m ∈ connNames conn', m ∈ connNames conn ∨ m ∈ inputs.map CityInput.city := by
  induction inputs generalizing conn with
  | nil =>
    simp only [runCities] at hr
    cases hr
    exact fun m hm => Or.inl hm
  | cons inp rest ih =>
    rcases h : processCity conn inp with c | c
    · rw [runCities_cons_error h] at hr
      cases hr
    · rw [runCities_cons_ok h] at hr
      have hstep := processCity_names conn inp
      rw [h] at hstep
      intro m hm
      rcases ih c hr m hm with h1 | h1
      · rcases hstep m h1 with h2 | h2
        · exact Or.inl h2
        · exact Or.inr (by simp [h2])
      · exact Or.inr (by simp [h1])

/-! ## The city-row count is stable once the row exists (re-run behaviour) -/

theorem upsertCity_cityCount (db : DB) (n name country : String)
    (h : 1 ≤ db.cityCount n) :
    ((db.upsertCity name country).2).cityCount n = db.cityCount n := by
  unfold DB.upsertCity DB.cityCount
  split
  case h_1 r hr =>
    exact filterLen_map_updCountry db.cities name country n
  case h_2 hr =>
    have hnone := List.find?_eq_none.1 hr
    by_cases hn : name = n
    · exfalso
      unfold DB.cityCount at h
      rcases hl : db.cities.filter (fun r => r.city_name == n) with _ | ⟨x, xs⟩
      · rw [hl] at h; simp at h
      · have hx : x ∈ db.cities.filter (fun r => r.city_name == n) := by
          rw [hl]; exact List.mem_cons_self _ _
        have hpx := List.of_mem_filter hx
        have hmx := List.mem_of_mem_filter hx
        exact hnone x hmx (by subst hn; exact hpx)
    · have : (decide ((⟨db.nextId, name, country⟩ : CityRow).city_name = n)) = false := by
        simpa using hn
      simp [List.filter_append, hn]

theorem processCity_cityCount (conn : DBConn) (inp : CityInput) (n : String)
    (hd : conn.durable.cityCount n = 1) (hc : conn.current.cityCount n = 1) :
    ExceptBoth (fun c => c.durable.cityCount n = 1 ∧ c.current.cityCount n = 1)
      (processCity conn inp) := by
  have hup : ((conn.current.upsertCity inp.city (countryFor inp.city)).2).cityCount n
      = 1 := by
    rw [upsertCity_cityCount conn.current n inp.city (countryFor inp.city) (by omega)]
    exact hc
  rcases processCity_shapes conn inp with h | h | h | h | ⟨row, _, h⟩ <;> rw [h]
  · exact ⟨hd, hc⟩
  · exact ⟨hd, hd⟩
  · exact ⟨hd, hup⟩
  · exact ⟨hd, hup⟩
  · have : (((conn.current.upsertCity inp.city (countryFor inp.city)).2).insertSnapshot
        row).cityCount n = 1 := by
      unfold DB.cityCount
      rw [insertSnapshot_cities]
      exact hup
    exact ⟨this, this⟩

theorem runCities_cityCount (inputs : List CityInput) (conn : DBConn) (n : String)
    (hd : conn.durable.cityCount n = 1) (hc : conn.current.cityCount n = 1) :
    ExceptBoth (fun c => c.durable.cityCount n = 1 ∧ c.current.cityCount n = 1)
      (runCities conn inputs) := by
  induction inputs generalizing conn with
  | nil => exact ⟨hd, hc⟩
  | cons inp rest ih =>
    have hstep := processCity_cityCount conn inp n hd hc
    rcases h : processCity conn inp with c | c
    · rw [runCities_cons_error h]
      rw [h] at hstep
      exact hstep
    · rw [runCities_cons_ok h]
      rw [h] at hstep
      exact ih c hstep.1 hstep.2

/-! ## A freshly loaded city stays unique through the rest of the run -/

theorem filter_map_singleton {α β : Type} (p : α → Bool) (f : α → β) {l : List α}
    {k : β} (h : (l.filter p).map f = [k]) :
    ∃ x ∈ l, p x = true ∧ f x = k := by
  rcases hf : l.filter p with _ | ⟨x, xs⟩
  · rw [hf] at h
    simp at h
  · rw [hf] at h
    have hx : x ∈ l.filter p := by
      rw [hf]
      exact List.mem_cons_self _ _
    simp only [List.map_cons, List.cons.injEq] at h
    exact ⟨x, List.mem_of_mem_filter hx, List.of_mem_filter hx, h.1⟩

theorem upsertCity_once (db : DB) (n : String) (k : Nat) (name country : String)
    (hw : db.wf) (hne : name ≠ n) (h : db.onceCity n k) :
    ((db.upsertCity name country).2).onceCity n k
    ∧ (db.upsertCity name country).1 ≠ k := by
  obtain ⟨h1, h2, h3⟩ := h
  obtain ⟨rn, hrnm, hrnp, hrnk⟩ := filter_map_singleton _ _ h1
  have hrnname : rn.city_name = n := by simpa using hrnp
  unfold DB.upsertCity
  split
  case h_1 r hr =>
    have hrm : r ∈ db.cities := List.mem_of_find?_eq_some hr
    have hrname : r.city_name = name := by simpa using List.find?_some hr
    refine ⟨⟨?_, h2, h3⟩, ?_⟩
    · exact (filter_map_updCountry db.cities name country n).trans h1
    · have hner : r ≠ rn := fun hcontra => hne (by rw [← hrname, hcontra, hrnname])
      have hsym : Symmetric (fun a b : CityRow =>
          a.city_name ≠ b.city_name ∧ a.city_id ≠ b.city_id) :=
        fun a b hab => ⟨hab.1.symm, hab.2.symm⟩
      have := hw.1.forall hsym hrm hrnm hner
      rw [← hrnk]
      exact this.2
  case h_2 hr =>
    have hfalse : ((⟨db.nextId, name, country⟩ : CityRow).city_name == n) = false := by
      simpa using hne
    refine ⟨⟨?_, h2, Nat.lt_succ_of_lt h3⟩, ?_⟩
    · rw [List.filter_append]
      simp only [List.filter_cons, hfalse]
      simpa using h1
    · exact fun hcontra => absurd (hcontra ▸ h3) (Nat.lt_irrefl _)

theorem insertSnapshot_once (db : DB) (row : SnapRow) (n : String) (k : Nat)
    (hne : row.city_id ≠ k) (h : db.onceCity n k) :
    (db.insertSnapshot row).onceCity n k := by
  obtain ⟨h1, h2, h3⟩ := h
  unfold DB.insertSnapshot
  split
  · exact ⟨h1, h2, h3⟩
  · refine ⟨h1, ?_, h3⟩
    rw [List.filter_append]
    have hfalse : (row.city_id == k) = false := by simpa using hne
    simp only [List.filter_cons, hfalse]
    simpa using h2

theorem processCity_once (conn : DBConn) (inp : CityInput) (n : String) (k : Nat)
    (hw : conn.wf) (hne : inp.city ≠ n)
    (hd : conn.durable.onceCity n k) (hc : conn.current.onceCity n k) :
    ExceptBoth (fun c => c.durable.onceCity n k ∧ c.current.onceCity n k)
      (processCity conn inp) := by
  have hup := upsertCity_once conn.current n k inp.city (countryFor inp.city)
    hw.2 hne hc
  rcases processCity_shapes conn inp with h | h | h | h | ⟨row, hid, h⟩ <;> rw [h]
  · exact ⟨hd, hc⟩
  · exact ⟨hd, hd⟩
  · exact ⟨hd, hup.1⟩
  · exact ⟨hd, hup.1⟩
  · have honce := insertSnapshot_once _ row n k (by rw [hid]; exact hup.2) hup.1
    exact ⟨honce, honce⟩

theorem runCities_once (inputs : List CityInput) (conn : DBConn) (n : String)
    (k : Nat) (hw : conn.wf) (hnames : ∀ i ∈ inputs, i.city ≠ n)
    (hd : conn.durable.onceCity n k) (hc : conn.current.onceCity n k) :
    ExceptBoth (fun c => c.durable.onceCity n k ∧ c.current.onceCity n k)
      (runCities conn inputs) := by
  induction inputs generalizing conn with
  | nil => exact ⟨hd, hc⟩
  | cons inp rest ih =>
    have hstep := processCity_once conn inp n k hw (hnames inp (by simp)) hd hc
    have hwstep := processCity_wf conn inp hw
    rcases h : processCity conn inp with c | c
    · rw [runCities_cons_error h]
      rw [h] at hstep
      exact hstep
    · rw [runCities_cons_ok h]
      rw [h] at hstep
      rw [h] at hwstep
      exact ih c hwstep (fun i hi => hnames i (by simp [hi])) hstep.1 hstep.2

/-- Processing a fully successful city whose name is not yet in the open
transaction's view commits a state with exactly one row for that city and
exactly one snapshot referencing its fresh id. -/
theorem processCity_fresh (conn : DBConn) (inp : CityInput) (lat lon : ℚ)
    (d : WeatherData) (hw : conn.wf)
    (hg : inp.geo = .ok lat lon) (hlat : lat ≠ 0) (hlon : lon ≠ 0)
    (hdb : inp.dbErr = .none) (hwx : inp.weather = .ok d)
    (hfresh : ∀ r ∈ conn.current.cities, r.city_name ≠ inp.city) :
    ∃ c : DBConn, processCity conn inp = .ok c ∧ c.wf
      ∧ c.durable.onceCity inp.city conn.current.nextId
      ∧ c.current.onceCity inp.city conn.current.nextId := by
  have hfind : conn.current.cities.find? (fun r => r.city_name == inp.city) = none :=
    List.find?_eq_none.2 (fun x hx => by simpa using hfresh x hx)
  have hup : conn.current.upsertCity inp.city (countryFor inp.city) =
      (conn.current.nextId,
       { conn.current with
           cities := conn.current.cities ++
             [⟨conn.current.nextId, inp.city, countryFor inp.city⟩],
           nextId := conn.current.nextId + 1 }) := by
    unfold DB.upsertCity
    rw [hfind]
  have hnoid : ∀ s ∈ conn.current.snapshots, s.city_id ≠ conn.current.nextId := by
    intro s hs
    obtain ⟨r, hr, hrid⟩ := hw.2.2.2 s hs
    have := hw.2.2.1 r hr
    omega
  set row : SnapRow :=
    ⟨conn.current.nextId, inp.fetch_time, d.temperature_2m, d.apparent_temperature,
     d.relative_humidity_2m, weather_main d.weather_code,
     weather_desc d.weather_code, d.wind_speed_10m⟩ with hrow
  have hany : ((conn.current.upsertCity inp.city (countryFor inp.city)).2).snapshots.any
      (fun s => s.city_id == row.city_id && s.fetch_time == row.fetch_time) = false := by
    rw [upsertCity_snapshots]
    rw [List.any_eq_false]
    intro s hs
    have := hnoid s hs
    simp [hrow, this]
  have hps := processCity_success conn inp lat lon d hg hlat hlon hdb hwx
  set db1 := (conn.current.upsertCity inp.city (countryFor inp.city)).2 with hdb1
  have hdb1c : db1.cities = conn.current.cities ++
      [⟨conn.current.nextId, inp.city, countryFor inp.city⟩] := by
    rw [hdb1, hup]
  have hdb1s : db1.snapshots = conn.current.snapshots := upsertCity_snapshots _ _ _
  have hdb1n : db1.nextId = conn.current.nextId + 1 := by
    rw [hdb1, hup]
  have hrowid : (conn.current.upsertCity inp.city (countryFor inp.city)).1 =
      conn.current.nextId := by
    rw [hup]
  set db2 := db1.insertSnapshot row with hdb2
  have hdb2eq : db2 = { db1 with snapshots := db1.snapshots ++ [row] } := by
    rw [hdb2]
    unfold DB.insertSnapshot
    rw [hany]
    simp
  have honce : db2.onceCity inp.city conn.current.nextId := by
    refine ⟨?_, ?_, ?_⟩
    · rw [hdb2eq]
      show ((db1.cities.filter (fun r => r.city_name == inp.city)).map CityRow.city_id)
        = _
      rw [hdb1c, List.filter_append]
      have hold : conn.current.cities.filter (fun r => r.city_name == inp.city) = [] :=
        List.filter_eq_nil_iff.2 (fun x hx => by simpa using hfresh x hx)
      rw [hold]
      simp
    · rw [hdb2eq]
      show ((db1.snapshots ++ [row]).filter (fun s => s.city_id == conn.current.nextId)).length
        = 1
      rw [hdb1s, List.filter_append]
      have hold : conn.current.snapshots.filter
          (fun s => s.city_id == conn.current.nextId) = [] :=
        List.filter_eq_nil_iff.2 (fun x hx => by simpa using hnoid x hx)
      rw [hold]
      simp [hrow]
    · rw [hdb2eq]
      show conn.current.nextId < db1.nextId
      omega
  have hwf2 : db2.wf := by
    refine insertSnapshot_wf db1 row (upsertCity_wf _ _ _ hw.2) ?_
    refine ⟨⟨conn.current.nextId, inp.city, countryFor inp.city⟩, ?_, rfl⟩
    rw [hdb1c]
    exact List.mem_append_right _ (by simp)
  refine ⟨⟨db2, db2⟩, ?_, ⟨hwf2, hwf2⟩, honce, honce⟩
  rw [hps]
  have : row.city_id = (conn.current.upsertCity inp.city (countryFor inp.city)).1 := by
    rw [hrowid]
  simp only [DBConn.commit]
  rw [hrowid]

/-! ## Lemmas on the weather-code category -/

theorem firstWord_weather_code (s : String) :
    firstWord ("Weather code " ++ s) = "Weather" := by
  have h : ("Weather code " ++ s).data = "Weather code ".data ++ s.data :=
    String.data_append _ _
  simp only [firstWord, h]
  norm_num [takeWord, List.dropWhile,
    show 'W'.isWhitespace = false from by decide,
    show 'e'.isWhitespace = false from by decide,
    show 'a'.isWhitespace = false from by decide,
    show 't'.isWhitespace = false from by decide,
    show 'h'.isWhitespace = false from by decide,
    show 'r'.isWhitespace = false from by decide,
    show ' '.isWhitespace = true from by decide]

/-! ## Claim theorems -/

/-- C3: for every integer weather code the description is the lookup-table
entry when mapped and exactly "Weather code N" otherwise; the coarse
category is "Clouds" exactly when the code lies in [1,3]; codes 1-3 give
"Clouds", code 0 gives "Clear", and code 999 gives description
"Weather code 999" and category "Weather". -/
theorem claim_C3 :
    (∀ code : Int,
        (∀ d, descriptionsGet code = some d → weather_desc code = d)
        ∧ (descriptionsGet code = none →
            weather_desc code = "Weather code " ++ toString code)
        ∧ (weather_main code = "Clouds" ↔ 1 ≤ code ∧ code ≤ 3))
    ∧ weather_main 1 = "Clouds" ∧ weather_main 2 = "Clouds"
    ∧ weather_main 3 = "Clouds" ∧ weather_main 0 = "Clear"
    ∧ weather_desc 999 = "Weather code 999" ∧ weather_main 999 = "Weather" := by
  refine ⟨?_, by decide, by decide, by decide, by decide, by decide, by decide⟩
  intro code
  refine ⟨fun d hd => by simp [weather_desc, hd],
    fun hn => by simp [weather_desc, hn], ?_⟩
  by_cases h0 : code = 0
  · subst h0; decide
  by_cases h1 : code = 1
  · subst h1; decide
  by_cases h2 : code = 2
  · subst h2; decide
  by_cases h3 : code = 3
  · subst h3; decide
  by_cases h45 : code = 45
  · subst h45; decide
  by_cases h48 : code = 48
  · subst h48; decide
  by_cases h51 : code = 51
  · subst h51; decide
  by_cases h61 : code = 61
  · subst h61; decide
  by_cases h71 : code = 71
  · subst h71; decide
  by_cases h80 : code = 80
  · subst h80; decide
  by_cases h95 : code = 95
  · subst h95; decide
  have hnone : descriptionsGet code = none := by
    simp [descriptionsGet, h0, h1, h2, h3, h45, h48, h51, h61, h71, h80, h95]
  have hrange : ¬(1 ≤ code ∧ code ≤ 3) := by omega
  have hwm : weather_main code = firstWord ("Weather code " ++ toString code) := by
    rw [weather_main, if_neg hrange, weather_desc, hnone, Option.getD_none]
  rw [hwm, firstWord_weather_code]
  exact ⟨fun h => absurd h (by decide), fun h => absurd h hrange⟩

theorem claim_C3_witness :
    weather_main 2 = "Clouds" ∧ weather_desc 999 = "Weather code 999" :=
  ⟨((claim_C3.1 2).2.2).mpr (by decide), ((claim_C3.1 999).2.1) (by decide)⟩

/-- C5: a geocoding exception, non-200 response, or empty result array makes
`fetch_coordinates` return the sentinel (None, None); the loop then performs
no database writes for that city and proceeds to the next one. -/
theorem claim_C5 :
    ∀ (conn : DBConn) (inp : CityInput) (rest : List CityInput),
      (inp.geo = .error ∨ inp.geo = .non200 ∨ inp.geo = .emptyResults) →
      fetch_coordinates inp.geo = (none, none)
      ∧ processCity conn inp = .ok conn
      ∧ runCities conn (inp :: rest) = runCities conn rest := by
  intro conn inp rest h
  have h1 : fetch_coordinates inp.geo = (none, none) := by
    rcases h with h | h | h <;> simp [fetch_coordinates, h]
  have h2 := processCity_geoFail conn inp h
  exact ⟨h1, h2, runCities_cons_ok h2⟩

def inpGeoErr : CityInput := ⟨"Nairobi,Kenya", .error, .non200, .none, 0⟩

theorem claim_C5_witness :
    fetch_coordinates inpGeoErr.geo = (none, none)
    ∧ processCity emptyConn inpGeoErr = .ok emptyConn
    ∧ runCities emptyConn [inpGeoErr] = runCities emptyConn [] :=
  claim_C5 emptyConn inpGeoErr [] (Or.inl rfl)

/-- C9: the skip test is Python truthiness, so a geocoding success whose
latitude or longitude is exactly 0.0 is treated like a failure: coordinates
are present, yet no database writes occur and the loop moves on. -/
theorem claim_C9 :
    ∀ (conn : DBConn) (inp : CityInput) (rest : List CityInput) (lat lon : ℚ),
      inp.geo = .ok lat lon → (lat = 0 ∨ lon = 0) →
      fetch_coordinates inp.geo = (some lat, some lon)
      ∧ processCity conn inp = .ok conn
      ∧ runCities conn (inp :: rest) = runCities conn rest := by
  intro conn inp rest lat lon hg h
  have h2 := processCity_zeroCoord conn inp lat lon hg h
  exact ⟨by simp [fetch_coordinates, hg], h2, runCities_cons_ok h2⟩

def inpZeroLat : CityInput := ⟨"Accra,Ghana", .ok 0 (-1/5), .ok ⟨27, 28, 60, 0, 2⟩, .none, 0⟩

theorem claim_C9_witness :
    fetch_coordinates inpZeroLat.geo = (some 0, some (-1/5))
    ∧ processCity emptyConn inpZeroLat = .ok emptyConn
    ∧ runCities emptyConn [inpZeroLat] = runCities emptyConn [] :=
  claim_C9 emptyConn inpZeroLat [] 0 (-1/5) rfl (Or.inl rfl)

/-- C8: a report-generator run whose warehouse query returns zero rows
raises (the error propagates) before any chart image or insights file is
produced. -/
theorem claim_C8 :
    ∀ rows : List ReportRow, rows = [] →
      fetch_data rows =
        .error "No data retrieved. Ensure ETL has run and weather data exists for today."
      ∧ generate_report rows = ([], true) := by
  intro rows h
  subst h
  exact ⟨rfl, rfl⟩

theorem claim_C8_witness :
    fetch_data ([] : List ReportRow) =
      .error "No data retrieved. Ensure ETL has run and weather data exists for today."
    ∧ generate_report ([] : List ReportRow) = ([], true) :=
  claim_C8 [] rfl

/-! ## Concrete inputs used by witnesses and counterexamples -/

def wdStd : WeatherData := ⟨20, 19, 50, 2, 3⟩

/-- A city whose weather response is 200 but missing expected fields. -/
def inpMissing : CityInput := ⟨"Rome,Italy", .ok 41 12, .missingFields, .none, 0⟩

/-- A fully successful city. -/
def inpGood : CityInput := ⟨"Nairobi,Kenya", .ok 1 36, .ok wdStd, .none, 0⟩

/-- A city whose weather response is non-200: its upsert stays pending. -/
def inpPending : CityInput := ⟨"Paris,France", .ok 48 2, .non200, .none, 0⟩

/-- A city whose snapshot insert raises a database error. -/
def inpSnapErr : CityInput := ⟨"Cairo,Egypt", .ok 30 31, .ok wdStd, .onSnapshotInsert, 0⟩

/-- A city whose dim_city upsert raises a database error. -/
def inpUpsertErr : CityInput := ⟨"Cairo,Egypt", .ok 30 31, .ok wdStd, .onUpsert, 0⟩

/-- A one-city committed database state. -/
def dbParis : DB := ⟨[⟨0, "Paris,France", "France"⟩], [], 1⟩

/-- C1 (amended): geocoding API errors are caught and skip the city, and a
non-200 weather response skips persistence for the city (no snapshot row,
the pending upsert is left unresolved) and continues; but the per-city
handler catches only psycopg2 database errors, so a 200 weather response
missing expected fields raises an uncaught KeyError that aborts the whole
batch instead of skipping the city. -/
theorem claim_C1 :
    ∀ (conn : DBConn) (inp : CityInput) (rest : List CityInput),
      ((inp.geo = .error ∨ inp.geo = .non200 ∨ inp.geo = .emptyResults) →
        processCity conn inp = .ok conn
        ∧ runCities conn (inp :: rest) = runCities conn rest)
      ∧ (∀ lat lon : ℚ, inp.geo = .ok lat lon → lat ≠ 0 → lon ≠ 0 →
          inp.dbErr = .none →
          (inp.weather = .non200 →
            processCity conn inp =
              .ok ⟨conn.durable,
                   (conn.current.upsertCity inp.city (countryFor inp.city)).2⟩
            ∧ ((conn.current.upsertCity inp.city (countryFor inp.city)).2).snapshots
                = conn.current.snapshots
            ∧ runCities conn (inp :: rest)
                = runCities ⟨conn.durable,
                    (conn.current.upsertCity inp.city (countryFor inp.city)).2⟩ rest)
          ∧ (inp.weather = .missingFields →
              runCities conn (inp :: rest) =
                .error ⟨conn.durable,
                  (conn.current.upsertCity inp.city (countryFor inp.city)).2⟩)) := by
  intro conn inp rest
  constructor
  · intro h
    have h2 := processCity_geoFail conn inp h
    exact ⟨h2, runCities_cons_ok h2⟩
  · intro lat lon hg hlat hlon hdb
    constructor
    · intro hwx
      have h2 := processCity_weatherNon200 conn inp lat lon hg hlat hlon
        (by simp [hdb]) hwx
      exact ⟨h2, upsertCity_snapshots _ _ _, runCities_cons_ok h2⟩
    · intro hwx
      exact runCities_cons_error
        (processCity_missingFields conn inp lat lon hg hlat hlon (by simp [hdb]) hwx)

/-- C1 counterexample: a 200 weather response with missing fields is NOT
treated as "skip this city": the batch raises (the run aborts) and the
following city is never processed, contradicting "never fatal to the batch"
and "the loop continues to the next city instead of raising". -/
theorem claim_C1_counterexample :
    runAborts DB.empty [inpMissing, inpGood] = true
    ∧ finalDB (fetch_and_load_weather DB.empty [inpMissing, inpGood]) = DB.empty := by
  exact ⟨by decide, by rfl⟩

theorem claim_C1_witness :
    (processCity emptyConn inpPending =
      .ok ⟨emptyConn.durable,
        (emptyConn.current.upsertCity inpPending.city (countryFor inpPending.city)).2⟩)
    ∧ runCities emptyConn [inpMissing] =
        .error ⟨emptyConn.durable,
          (emptyConn.current.upsertCity inpMissing.city (countryFor inpMissing.city)).2⟩ :=
  ⟨(((claim_C1 emptyConn inpPending []).2 48 2 rfl (by decide) (by decide) rfl).1 rfl).1,
   ((claim_C1 emptyConn inpMissing []).2 41 12 rfl (by decide) (by decide) rfl).2 rfl⟩

/-- C4: a psycopg2 database error during one city's steps (upsert, or
snapshot insert after a successful weather fetch) rolls the open transaction
back to the last committed state, the committed results of prior cities
persist (the durable view is unchanged), and the loop continues with the
remaining cities from that state — the batch is never aborted. -/
theorem claim_C4 :
    ∀ (conn : DBConn) (inp : CityInput) (rest : List CityInput) (lat lon : ℚ),
      inp.geo = .ok lat lon → lat ≠ 0 → lon ≠ 0 →
      (inp.dbErr = .onUpsert
        ∨ (inp.dbErr = .onSnapshotInsert ∧ ∃ d, inp.weather = .ok d)) →
      processCity conn inp = .ok ⟨conn.durable, conn.durable⟩
      ∧ runCities conn (inp :: rest) = runCities ⟨conn.durable, conn.durable⟩ rest := by
  intro conn inp rest lat lon hg hlat hlon h
  have h2 : processCity conn inp = .ok conn.rollback := by
    rcases h with h | ⟨h, d, hwx⟩
    · exact processCity_upsertErr conn inp lat lon hg hlat hlon h
    · exact processCity_snapErr conn inp lat lon d hg hlat hlon h hwx
  exact ⟨h2, runCities_cons_ok h2⟩

theorem claim_C4_witness :
    processCity ⟨dbParis, dbParis⟩ inpUpsertErr = .ok ⟨dbParis, dbParis⟩
    ∧ runCities ⟨dbParis, dbParis⟩ [inpUpsertErr] = runCities ⟨dbParis, dbParis⟩ [] :=
  claim_C4 ⟨dbParis, dbParis⟩ inpUpsertErr [] 30 31 rfl (by decide) (by decide)
    (Or.inl rfl)

/-- C10: on a non-200 weather response the already-executed city upsert is
neither committed nor rolled back — the durable view is unchanged and the
pending view keeps the upsert; concretely, the pending row becomes durable
when a later city commits, is discarded by a later city's rollback, and is
lost when the run ends and the connection closes without a final commit. -/
theorem claim_C10 :
    (∀ (conn : DBConn) (inp : CityInput) (lat lon : ℚ),
      inp.geo = .ok lat lon → lat ≠ 0 → lon ≠ 0 →
      inp.dbErr ≠ .onUpsert → inp.weather = .non200 →
      processCity conn inp =
        .ok ⟨conn.durable, (conn.current.upsertCity inp.city (countryFor inp.city)).2⟩)
    ∧ finalDB (fetch_and_load_weather DB.empty [inpPending]) = DB.empty
    ∧ (finalDB (fetch_and_load_weather DB.empty
        [inpPending, inpGood])).cityCount "Paris,France" = 1
    ∧ (finalDB (fetch_and_load_weather DB.empty
        [inpPending, inpSnapErr])).cityCount "Paris,France" = 0 := by
  refine ⟨?_, by rfl, by decide, by decide⟩
  intro conn inp lat lon hg hlat hlon hdb hwx
  exact processCity_weatherNon200 conn inp lat lon hg hlat hlon hdb hwx

theorem claim_C10_witness :
    processCity emptyConn inpPending =
      .ok ⟨emptyConn.durable,
        (emptyConn.current.upsertCity inpPending.city (countryFor inpPending.city)).2⟩ :=
  claim_C10.1 emptyConn inpPending 48 2 rfl (by decide) (by decide) (by decide) rfl

/-- C6 (amended): for a CSV with the required columns and N data rows the
loader executes exactly N upserts and one final commit; the printed "Top 5"
is the FIRST five rows of the CSV in file order, which coincides with the
five highest ladder scores exactly when the file is sorted descending by
ladder score (as the published 2024 file is), not for an arbitrary CSV. -/
theorem claim_C6 :
    ∀ df : List HappinessRow,
      ((happinessTrace df).filter HapEvent.isUpsert).length = df.length
      ∧ ((happinessTrace df).filter HapEvent.isCommit).length = 1
      ∧ (happinessTrace df).getLast? = some .commit
      ∧ printedTop5 df = (df.take 5).map (fun r => (r.country_name, r.ladder_score))
      ∧ ((df.map (fun r => r.ladder_score)).Sorted (fun a b : ℚ => b ≤ a) →
          (printedTop5 df).map Prod.snd = top5Scores df) := by
  intro df
  refine ⟨?_, ?_, ?_, rfl, ?_⟩
  · unfold happinessTrace
    rw [List.filter_append]
    have h1 : (df.map HapEvent.upsert).filter HapEvent.isUpsert = df.map HapEvent.upsert := by
      rw [List.filter_eq_self]
      intro a ha
      obtain ⟨r, _, rfl⟩ := List.mem_map.1 ha
      rfl
    have h2 : ([HapEvent.commit].filter HapEvent.isUpsert) = [] := rfl
    rw [h1, h2]
    simp
  · unfold happinessTrace
    rw [List.filter_append]
    have h1 : (df.map HapEvent.upsert).filter HapEvent.isCommit = [] := by
      rw [List.filter_eq_nil_iff]
      intro a ha
      obtain ⟨r, _, rfl⟩ := List.mem_map.1 ha
      simp [HapEvent.isCommit]
    have h2 : ([HapEvent.commit].filter HapEvent.isCommit) = [HapEvent.commit] := rfl
    rw [h1, h2]
    rfl
  · exact List.getLast?_concat _
  · intro hs
    unfold top5Scores printedTop5
    rw [hs.insertionSort_eq]
    rw [List.map_map, ← List.map_take]
    rfl

def hrow (n : String) (s : ℚ) : HappinessRow := ⟨n, s, 0, 0, 0, 0, 0, 0⟩

/-- A six-row CSV that is not sorted by ladder score: the happiest country
is in the last row. -/
def df6 : List HappinessRow :=
  [hrow "A" 1, hrow "B" 1, hrow "C" 1, hrow "D" 1, hrow "E" 1, hrow "F" 9]

/-- C6 counterexample: the code prints `df.head()` — the first five rows in
file order — so on a CSV that is not sorted descending by ladder score the
printed "Top 5" does not reflect the five highest ladder scores: here the
maximum score 9 is among the five highest but absent from the print. -/
theorem claim_C6_counterexample :
    (9 : ℚ) ∈ top5Scores df6
    ∧ (9 : ℚ) ∉ (printedTop5 df6).map Prod.snd
    ∧ (printedTop5 df6).map Prod.snd ≠ top5Scores df6 := by
  refine ⟨by decide, by decide, by decide⟩

/-- A six-row CSV sorted descending by ladder score. -/
def dfSorted : List HappinessRow :=
  [hrow "F" 9, hrow "A" 5, hrow "B" 4, hrow "C" 3, hrow "D" 2, hrow "E" 1]

theorem claim_C6_witness :
    ((happinessTrace dfSorted).filter HapEvent.isUpsert).length = 6
    ∧ (printedTop5 dfSorted).map Prod.snd = top5Scores dfSorted :=
  ⟨(claim_C6 dfSorted).1, (claim_C6 dfSorted).2.2.2.2 (by decide)⟩

theorem emptyConn_wf : emptyConn.wf := by
  refine ⟨⟨?_, ?_, ?_⟩, ⟨?_, ?_, ?_⟩⟩ <;> simp [emptyConn, DB.empty]

/-- C7: every snapshot written on the success path carries the city id that
the upsert of the same iteration just returned, and from any well-formed
starting state, every state the loader can reach — after any mix of
commits, rollbacks, and pending work — has no snapshot row without its
parent city row, in the durable view and in the open transaction alike. -/
theorem claim_C7 :
    (∀ (conn : DBConn) (inp : CityInput) (lat lon : ℚ) (d : WeatherData),
      inp.geo = .ok lat lon → lat ≠ 0 → lon ≠ 0 →
      inp.dbErr = .none → inp.weather = .ok d →
      processCity conn inp =
        .ok (DBConn.commit ⟨conn.durable,
          ((conn.current.upsertCity inp.city (countryFor inp.city)).2).insertSnapshot
            ⟨(conn.current.upsertCity inp.city (countryFor inp.city)).1, inp.fetch_time,
             d.temperature_2m, d.apparent_temperature, d.relative_humidity_2m,
             weather_main d.weather_code, weather_desc d.weather_code,
             d.wind_speed_10m⟩⟩))
    ∧ (∀ (conn : DBConn) (inputs : List CityInput), conn.wf →
        ExceptBoth (fun c =>
          (∀ s ∈ c.durable.snapshots, ∃ r ∈ c.durable.cities, r.city_id = s.city_id)
          ∧ (∀ s ∈ c.current.snapshots, ∃ r ∈ c.current.cities, r.city_id = s.city_id))
          (runCities conn inputs)) := by
  refine ⟨processCity_success, ?_⟩
  intro conn inputs hw
  have h := runCities_wf inputs conn hw
  rcases hr : runCities conn inputs with c | c <;> rw [hr] at h
  · exact ⟨h.1.2.2, h.2.2.2⟩
  · exact ⟨h.1.2.2, h.2.2.2⟩

theorem claim_C7_witness :
    ExceptBoth (fun c =>
      (∀ s ∈ c.durable.snapshots, ∃ r ∈ c.durable.cities, r.city_id = s.city_id)
      ∧ (∀ s ∈ c.current.snapshots, ∃ r ∈ c.current.cities, r.city_id = s.city_id))
      (runCities emptyConn [inpGood, inpPending]) :=
  claim_C7.2 emptyConn [inpGood, inpPending] emptyConn_wf

theorem runCities_append_ok {conn conn' : DBConn} {xs ys : List CityInput}
    (h : runCities conn (xs ++ ys) = .ok conn') :
    ∃ c, runCities conn xs = .ok c ∧ runCities c ys = .ok conn' := by
  have happ := runCities_append conn xs ys
  rw [h] at happ
  rcases hx : runCities conn xs with c | c <;> rw [hx] at happ
  · simp at happ
  · exact ⟨c, rfl, by simpa using happ.symm⟩

/-- C2: for every configured city whose geocoding and weather fetch succeed
(and no database error intervenes), one completed run from an empty
warehouse leaves exactly one `dim_city` row and exactly one
`fact_weather_snapshot` row for that city; re-running never duplicates a
city row that already exists (the upsert updates it in place); and a second
snapshot insert with an identical conflict key is a silently dropped no-op,
so at most the first snapshot per conflict key is retained. -/
theorem claim_C2 :
    (∀ (inputs : List CityInput) (final : DB),
      (inputs.map CityInput.city).Nodup →
      fetch_and_load_weather DB.empty inputs = .ok final →
      ∀ inp ∈ inputs, ∀ (lat lon : ℚ) (d : WeatherData),
        inp.geo = .ok lat lon → lat ≠ 0 → lon ≠ 0 →
        inp.weather = .ok d → inp.dbErr = .none →
        ∃ k, (final.cities.filter (fun r => r.city_name == inp.city)).map
                CityRow.city_id = [k]
           ∧ (final.snapshots.filter (fun s => s.city_id == k)).length = 1)
    ∧ (∀ (init : DB) (inputs : List CityInput) (n : String),
        init.cityCount n = 1 →
        (finalDB (fetch_and_load_weather init inputs)).cityCount n = 1)
    ∧ (∀ (db : DB) (row : SnapRow),
        (∃ s ∈ db.snapshots, s.city_id = row.city_id ∧ s.fetch_time = row.fetch_time) →
        db.insertSnapshot row = db) := by
  refine ⟨?_, ?_, ?_⟩
  · intro inputs final hnodup hrun inp hmem lat lon d hg hlat hlon hwx hdb
    obtain ⟨pre, post, rfl⟩ := List.append_of_mem hmem
    have hex : ∃ c : DBConn,
        runCities ⟨DB.empty, DB.empty⟩ (pre ++ inp :: post) = .ok c
        ∧ c.durable = final := by
      unfold fetch_and_load_weather at hrun
      rcases hr : runCities ⟨DB.empty, DB.empty⟩ (pre ++ inp :: post) with c | c <;>
        rw [hr] at hrun <;> simp at hrun
      exact ⟨c, rfl, hrun⟩
    obtain ⟨cfin, hrfin, hcd⟩ := hex
    obtain ⟨c0, hpre, hrest⟩ := runCities_append_ok hrfin
    have hw0 : c0.wf := by
      have h := runCities_wf pre ⟨DB.empty, DB.empty⟩ emptyConn_wf
      rw [hpre] at h
      exact h
    have hnodup' := hnodup
    rw [List.map_append, List.map_cons] at hnodup'
    have hprene : inp.city ∉ pre.map CityInput.city := by
      intro hmem2
      exact List.disjoint_of_nodup_append hnodup' hmem2 (by simp)
    have hpostne : ∀ i ∈ post, i.city ≠ inp.city := by
      have h2 := (List.nodup_append.1 hnodup').2.1
      rw [List.nodup_cons] at h2
      intro i hi hcontra
      exact h2.1 (hcontra ▸ List.mem_map_of_mem _ hi)
    have hfresh : ∀ r ∈ c0.current.cities, r.city_name ≠ inp.city := by
      intro r hr hcontra
      have hmemname : inp.city ∈ connNames c0 :=
        List.mem_append_right _ (hcontra ▸ List.mem_map_of_mem _ hr)
      rcases runCities_names pre _ c0 hpre _ hmemname with h | h
      · simp [connNames, DB.empty] at h
      · exact hprene h
    obtain ⟨c1', hps, hwf1, honced, honcec⟩ :=
      processCity_fresh c0 inp lat lon d hw0 hg hlat hlon hdb hwx hfresh
    rcases hstep : processCity c0 inp with c1 | c1
    · rw [runCities_cons_error hstep] at hrest
      cases hrest
    · rw [runCities_cons_ok hstep] at hrest
      rw [hps] at hstep
      have hc1 : c1' = c1 := by injection hstep
      subst hc1
      have hrun2 := runCities_once post c1' inp.city c0.current.nextId hwf1
        hpostne honced honcec
      rw [hrest] at hrun2
      refine ⟨c0.current.nextId, ?_, ?_⟩
      · rw [← hcd]
        exact hrun2.1.1
      · rw [← hcd]
        exact hrun2.1.2.1
  · intro init inputs n h
    have hcc := runCities_cityCount inputs ⟨init, init⟩ n h h
    unfold fetch_and_load_weather
    rcases hr : runCities ⟨init, init⟩ inputs with c | c <;> rw [hr] at hcc <;>
      simpa [finalDB] using hcc.1
  · intro db row h
    obtain ⟨s, hs, h1, h2⟩ := h
    unfold DB.insertSnapshot
    rw [if_pos]
    rw [List.any_eq_true]
    exact ⟨s, hs, by simp [h1, h2]⟩

/-- The warehouse produced by a completed one-city run of the loader on
`inpGood` from an empty database. -/
def dbGood : DB :=
  ⟨[⟨0, "Nairobi,Kenya", "Kenya"⟩],
   [⟨0, 0, 20, 19, 50, "Clouds", "Partly cloudy", 3⟩], 1⟩

theorem claim_C2_witness :
    ∃ k, (dbGood.cities.filter (fun r => r.city_name == inpGood.city)).map
            CityRow.city_id = [k]
       ∧ (dbGood.snapshots.filter (fun s => s.city_id == k)).length = 1 :=
  claim_C2.1 [inpGood] dbGood (by decide) (by rfl) inpGood (by simp)
    1 36 wdStd rfl (by decide) (by decide) rfl rfl

end Warehouse
